import Mathlib

/-!
Verification of the filter-and-facet transformation engine of `search/api.py`.

Embedding conventions:
* Timestamps (`datetime` values, timezone stripped) are modelled as `Int`
  seconds; `timedelta(days=30)` is the constant `thirtyDays`.  The repeated
  `datetime.utcnow()` calls inside one request are modelled as a single
  reference instant `now`.
* Python strings are modelled by `PyStr`: a string that `dateutil.parser.parse`
  accepts is represented by the instant it parses to (`PyStr.ts t`), and any
  other string by its literal text (`PyStr.lit s`); the empty string is
  `PyStr.lit ""`.  `dateutil.parser.parse(s, ignoretz=True)` raising
  `ValueError` is modelled by `parseDate` returning `none`, and the caller
  turning that into `PyErr.parseError`.
* Heterogeneous Python values (facet keys, field values, result data fields)
  are `PyVal`; `PyVal.pyNone` is Python `None`, `PyVal.other` any further
  non-string value.  The `isinstance(x, (str, unicode, bytes, bytearray))`
  guards of the source are the `PyVal.str` pattern.
* Python dicts appear in two roles: the field/filter/exclude dictionaries are
  total maps `Dict α = String → Option α`, and the facet mapping of a result
  envelope is an association list (first match wins, matching dict-key
  uniqueness), so that envelopes have decidable equality.
* Exceptions are `Except PyErr`: `parseError` for `ValueError` from the date
  parser, `keyError` for a failing `results['facets'][k]` subscript and
  `noSearchEngineError` for `NoSearchEngineError`.
* External collaborators (`SearchEngine.get_search_engine`,
  `SearchFilterGenerator.generate_field_filters`,
  `SearchResultProcessor.process_result`, Django settings) are parameters of
  the embedded entry points.
-/

/-- The `timedelta(days=30)` span in seconds; instants (`datetime` values with the
timezone stripped) are plain `Int` seconds throughout. -/
def thirtyDays : Int := 30 * 86400

/-- The `DateRange` of `search/utils.py`: a pair of optional bounds. -/
structure DateRange where
  lower : Option Int
  upper : Option Int
deriving DecidableEq, Repr

/-- A Python string, split by whether `dateutil.parser.parse` accepts it:
`ts t` is a string parsing to the instant `t`, `lit s` any other literal
(no timestamp renders as `"current"`, `"new"`, `"soon"`, `"future"`,
`"past"` or `""`, so the split loses nothing). -/
inductive PyStr where
  | ts (t : Int)
  | lit (s : String)
deriving DecidableEq, Repr

/-- Python truthiness of a string: only the empty string is falsy (a string
that parses as a timestamp is never empty). -/
def PyStr.truthy : PyStr → Bool
  | .ts _ => true
  | .lit s => s != ""

/-- Model of `dateutil.parser.parse(s, ignoretz=True)`: `none` models the raised
`ValueError` on a string with no parseable date (including `""`). -/
def parseDate : PyStr → Option Int
  | .ts t => some t
  | .lit _ => none

/-- A heterogeneous Python value as it occurs in facet keys, field
dictionaries and result `data` fields. -/
inductive PyVal where
  | str (s : PyStr)
  | range (r : DateRange)
  | pyNone
  | other
deriving DecidableEq, Repr

/-- Exceptions escaping the embedded functions. -/
inductive PyErr where
  | parseError
  | keyError
  | noSearchEngineError
deriving DecidableEq, Repr

deriving instance DecidableEq for Except

/-- The wrapped filter value built by `_format_filter`. -/
structure FormattedFilter where
  value : PyVal
  missing_included : Bool
deriving DecidableEq, Repr

/-- Source `_format_filter(filter, missing_included=True)` (api.py line 83). -/
def _format_filter (v : PyVal) (missing_included : Bool) : FormattedFilter :=
  ⟨v, missing_included⟩

/-- A Python dict in its map role (field / filter / exclude dictionaries). -/
abbrev Dict (α : Type) := String → Option α

/-- Assignment `d[k] = v` on a dict-as-map. -/
def setKey {α : Type} (d : Dict α) (k : String) (v : α) : Dict α :=
  fun k2 => if k2 = k then some v else d k2

/-- The dict remaining after `d.pop(k, None)`. -/
def delKey {α : Type} (d : Dict α) (k : String) : Dict α :=
  fun k2 => if k2 = k then none else d k2

/-- Lookup `d.get(k)` on a dict-as-association-list (keys unique in Python, first
match wins here). -/
def lookupKey {α : Type} : List (String × α) → String → Option α
  | [], _ => none
  | (k, v) :: rest, key => if k = key then some v else lookupKey rest key

/-- Assignment `d[k] = v` on a dict-as-association-list when `k` is already present:
replace the first binding of `k`. -/
def setFirstKey {α : Type} : List (String × α) → String → α → List (String × α)
  | [], _, _ => []
  | (k, v) :: rest, key, nv =>
      if k = key then (k, nv) :: rest else (k, v) :: setFirstKey rest key nv

/-- The start-facet buckets (api.py lines 103-111). -/
inductive StartBucket where
  | current
  | new
  | soon
  | future
deriving DecidableEq, Repr

/-- The status buckets (api.py lines 119-135). -/
inductive StatusBucket where
  | past
  | current
  | future
deriving DecidableEq, Repr

/-- The `new_start_terms` defaultdict: a total count per start bucket
(missing key = 0, matching `defaultdict(int)`). -/
structure StartCounts where
  current : Nat
  new : Nat
  soon : Nat
  future : Nat
deriving DecidableEq, Repr

/-- Increment `new_start_terms[b] += v`. -/
def StartCounts.add (c : StartCounts) (b : StartBucket) (v : Nat) : StartCounts :=
  match b with
  | .current => ⟨c.current + v, c.new, c.soon, c.future⟩
  | .new => ⟨c.current, c.new + v, c.soon, c.future⟩
  | .soon => ⟨c.current, c.new, c.soon + v, c.future⟩
  | .future => ⟨c.current, c.new, c.soon, c.future + v⟩

/-- Value of `sum(new_start_terms.values())`: buckets never touched hold 0 and
contribute nothing, so summing all four equals Python's sum over the
present keys. -/
def StartCounts.sum (c : StartCounts) : Nat :=
  c.current + c.new + c.soon + c.future

/-- The `status_terms` defaultdict. -/
structure StatusCounts where
  past : Nat
  current : Nat
  future : Nat
deriving DecidableEq, Repr

/-- Increment `status_terms[b] += v`. -/
def StatusCounts.add (c : StatusCounts) (b : StatusBucket) (v : Nat) : StatusCounts :=
  match b with
  | .past => ⟨c.past + v, c.current, c.future⟩
  | .current => ⟨c.past, c.current + v, c.future⟩
  | .future => ⟨c.past, c.current, c.future + v⟩

/-- Value of `sum(status_terms.values())`. -/
def StatusCounts.sum (c : StatusCounts) : Nat :=
  c.past + c.current + c.future

/-- The start-bucket classifier, api.py lines 103-111: default `'future'`,
then the `if key < now - 30d / elif key <= now / elif key < now + 30d`
chain. -/
def startBucket (now t : Int) : StartBucket :=
  if t < now - thirtyDays then .current
  else if t ≤ now then .new
  else if t < now + thirtyDays then .soon
  else .future

/-- One iteration of the facet-term loop, api.py lines 98-112: skip
non-string keys, parse string keys (a parse failure raises), classify and
accumulate. -/
def stepStartTerm (now : Int) (acc : StartCounts) : PyVal × Nat → Except PyErr StartCounts
  | (.str s, v) =>
      match parseDate s with
      | some t => .ok (acc.add (startBucket now t) v)
      | none => .error .parseError
  | (_, _) => .ok acc

/-- The whole facet-term loop over `start_terms.items()`. -/
def bucketStartTerms (now : Int) (terms : List (PyVal × Nat)) : Except PyErr StartCounts :=
  terms.foldlM (stepStartTerm now) ⟨0, 0, 0, 0⟩

/-- The bucketed `new_start_terms` dict written back into the facet entry:
bucket labels become plain (non-timestamp) string keys. -/
def countsToStartTerms (c : StartCounts) : List (PyVal × Nat) :=
  [(.str (.lit "current"), c.current), (.str (.lit "new"), c.new),
   (.str (.lit "soon"), c.soon), (.str (.lit "future"), c.future)]

/-- The bucketed `status_terms` dict. -/
def countsToStatusTerms (c : StatusCounts) : List (PyVal × Nat) :=
  [(.str (.lit "past"), c.past), (.str (.lit "current"), c.current),
   (.str (.lit "future"), c.future)]

/-- The `data` dict of one course-discovery result item; an absent key and a
stored `None` both read back as `pyNone` via `.get(..., None)`. -/
structure ItemData where
  start : PyVal
  end_ : PyVal
deriving DecidableEq, Repr

/-- One entry of `results['results']` as the status pass reads it. -/
structure ResultItem where
  data : ItemData
deriving DecidableEq, Repr

/-- The status classifier for one result item, api.py lines 119-135:
`continue` is `ok none`, an increment of bucket `b` is `ok (some b)`;
note the Python truthiness guards `start_term and ...` / `end_term and ...`
short-circuit before the parse. -/
def statusOfItem (now : Int) (d : ItemData) : Except PyErr (Option StatusBucket) :=
  match d.start with
  | .str s =>
      if s.truthy then
        match parseDate s with
        | none => .error .parseError
        | some t =>
          if t ≤ now then
            match d.end_ with
            | .str e =>
                if e.truthy then
                  match parseDate e with
                  | none => .error .parseError
                  | some te => if te ≤ now then .ok (some .past) else .ok (some .current)
                else .ok (some .current)
            | _ => .ok none
          else .ok (some .future)
      else .ok (some .future)
  | _ => .ok none

/-- The whole status loop over `results.get('results', [])`. -/
def bucketStatuses (now : Int) (items : List ResultItem) : Except PyErr StatusCounts :=
  items.foldlM
    (fun acc item =>
      match statusOfItem now item.data with
      | .error e => .error e
      | .ok none => .ok acc
      | .ok (some b) => .ok (acc.add b 1))
    ⟨0, 0, 0⟩

/-! ## Claim C1 -/

/-- C1: the start-bucket classifier realises the four fixed 30-day windows,
with the stated inclusive/exclusive boundaries, and the windows partition the
timestamp axis (the classifier is a total function and each bucket equation
is equivalent to its window predicate); a facet key that parses as a
timestamp is counted in exactly that bucket. -/
theorem start_bucket_window_partition (now t : Int) (acc : StartCounts) (v : Nat) :
    (startBucket now t = .current ↔ t < now - thirtyDays)
    ∧ (startBucket now t = .new ↔ now - thirtyDays ≤ t ∧ t ≤ now)
    ∧ (startBucket now t = .soon ↔ now < t ∧ t < now + thirtyDays)
    ∧ (startBucket now t = .future ↔ now + thirtyDays ≤ t)
    ∧ stepStartTerm now acc (.str (.ts t), v) = .ok (acc.add (startBucket now t) v) := by
  have h30 : thirtyDays = 2592000 := rfl
  refine ⟨?_, ?_, ?_, ?_, rfl⟩ <;>
    (unfold startBucket; split_ifs with h1 h2 h3 <;> simp <;> omega)

/-- One value of the `facets` mapping: a `{'terms': ..., 'total': ...}` dict. -/
structure FacetEntry where
  terms : List (PyVal × Nat)
  total : Nat
deriving DecidableEq, Repr

/-- A course-discovery result envelope as `process_range_data` sees it:
`results.get('results', [])` is `results`, and the `'facets'` key may be
absent (`facets = none`). -/
structure Envelope where
  results : List ResultItem
  facets : Option (List (String × FacetEntry))
deriving DecidableEq, Repr

/-- Read of `results.get('facets', \x7b}).get('start', \x7b}).get('terms', \x7b})`
(api.py line 94): every missing level reads as empty. -/
def getStartTerms : Envelope → List (PyVal × Nat)
  | ⟨_, none⟩ => []
  | ⟨_, some fl⟩ =>
      match lookupKey fl "start" with
      | none => []
      | some fe => fe.terms

/-- The facet entry currently stored under `key`, if any. -/
def lookupFacetEntry : Envelope → String → Option FacetEntry
  | ⟨_, none⟩, _ => none
  | ⟨_, some fl⟩, key => lookupKey fl key

/-- Writes `results['facets'][key]['terms'] = ...` and `['total'] = ...`
(api.py lines 114-115 and 137-138): subscripting `results['facets']` or
`...[key]` raises `KeyError` when the key is absent; the assignment itself
replaces the entry. -/
def setFacetEntry : Envelope → String → FacetEntry → Except PyErr Envelope
  | ⟨_, none⟩, _, _ => .error .keyError
  | ⟨res, some fl⟩, key, fe =>
      match lookupKey fl key with
      | none => .error .keyError
      | some _ => .ok ⟨res, some (setFirstKey fl key fe)⟩

/-- Sum of the counts of a terms dict (used to compare a written `total`
against its `terms`). -/
def termsSum (l : List (PyVal × Nat)) : Nat :=
  l.foldl (fun a p => a + p.2) 0

/-- Source `process_range_data(results)` (api.py lines 89-140).
`filterFields` is the ambient `course_discovery_filter_fields()` setting.
The start pass runs only when the raw start terms are non-empty
(`if start_terms:`); the status pass has no such guard and writes
unconditionally. -/
def processRangeData (filterFields : List String) (now : Int) (env : Envelope) :
    Except PyErr Envelope :=
  if "start" ∈ filterFields then
    if (getStartTerms env).isEmpty then .ok env
    else
      match bucketStartTerms now (getStartTerms env) with
      | .error e => .error e
      | .ok c => setFacetEntry env "start" ⟨countsToStartTerms c, c.sum⟩
  else if "status" ∈ filterFields then
    match bucketStatuses now env.results with
    | .error e => .error e
    | .ok c => setFacetEntry env "status" ⟨countsToStatusTerms c, c.sum⟩
  else .ok env

/-- Rendering of the status classification stated by the amended claim C2,
written from that claim's words: a non-string start skips; an empty-string
start yields `future`; a non-empty unparseable start raises; a parsed start
after `now` yields `future`; otherwise a non-string end skips, an
empty-string end yields `current`, a non-empty unparseable end raises, and a
parsed end yields `past` when at or before `now`, else `current`. -/
def statusSpec (now : Int) (d : ItemData) : Except PyErr (Option StatusBucket) :=
  match d.start with
  | .str (.ts t) =>
      if t ≤ now then
        match d.end_ with
        | .str (.ts te) => if te ≤ now then .ok (some .past) else .ok (some .current)
        | .str (.lit e) => if e = "" then .ok (some .current) else .error .parseError
        | _ => .ok none
      else .ok (some .future)
  | .str (.lit s) => if s = "" then .ok (some .future) else .error .parseError
  | _ => .ok none

/-! ## Claim C2 (corrected) -/

/-- C2 counterexample: an item whose `start` is the empty string — a string
value that does not parse as a timestamp — is not skipped as the claim
states; the Python truthiness guard short-circuits and the item is counted
as `future`. -/
theorem status_empty_start_counterexample :
    parseDate (.lit "") = none
    ∧ statusOfItem 0 ⟨.str (.lit ""), .pyNone⟩ = .ok (some .future)
    ∧ statusOfItem 0 ⟨.str (.lit ""), .pyNone⟩ ≠ .ok none := by
  refine ⟨rfl, rfl, by decide⟩

/-- C2 amended: the status classifier skips an item exactly when `start` (or,
with `start` parsed and at or before `now`, `end`) is a non-string value; an
empty-string `start` yields `future` and an empty-string `end` yields
`current` (truthiness short-circuit); a non-empty string that fails to parse
raises a parse error; otherwise `start <= now` with `end <= now` yields
`past`, with `end > now` yields `current`, and `start > now` yields
`future`. -/
theorem status_classifier_characterization (now : Int) (d : ItemData) :
    statusOfItem now d = statusSpec now d := by
  rcases d with ⟨start, end_⟩
  unfold statusOfItem statusSpec
  rcases start with s | r | _ | _ <;> try rfl
  rcases s with t | s
  · simp only [PyStr.truthy, parseDate]
    by_cases h1 : t ≤ now
    · simp only [if_pos h1, if_true]
      rcases end_ with e | r | _ | _ <;> try rfl
      rcases e with te | e
      · simp [PyStr.truthy, parseDate]
      · by_cases h2 : e = "" <;> simp [PyStr.truthy, parseDate, h2]
    · simp [if_neg h1]
  · by_cases h2 : s = "" <;> simp [PyStr.truthy, parseDate, h2]

/-! ## Claim C4 (corrected) -/

/-- C4 counterexample: a facet key that is a string but fails to parse as a
timestamp is not silently skipped; `dateutil.parser.parse` raises, and the
exception escapes `process_range_data`. -/
theorem facet_junk_key_counterexample :
    processRangeData ["start"] 0
        ⟨[], some [("start", ⟨[(.str (.lit "not-a-date"), 1)], 1⟩)]⟩
      = .error .parseError := by
  decide

/-- C4 amended: during bucketing, non-string values are silently skipped
(they count in no bucket and raise nothing); a string key of the facet pass
that fails to parse raises a parse error, as does a non-empty unparseable
string in the status pass, while an empty-string `start`/`end` in the status
pass is classified (`future`/`current`) rather than skipped. -/
theorem malformed_value_bucketing (now : Int) (acc : StartCounts) (v : Nat)
    (s : String) (r : DateRange) (e : PyVal) (t : Int)
    (hs : s ≠ "") (ht : t ≤ now) :
    stepStartTerm now acc (.pyNone, v) = .ok acc
    ∧ stepStartTerm now acc (.other, v) = .ok acc
    ∧ stepStartTerm now acc (.range r, v) = .ok acc
    ∧ stepStartTerm now acc (.str (.lit s), v) = .error .parseError
    ∧ statusOfItem now ⟨.pyNone, e⟩ = .ok none
    ∧ statusOfItem now ⟨.other, e⟩ = .ok none
    ∧ statusOfItem now ⟨.range r, e⟩ = .ok none
    ∧ statusOfItem now ⟨.str (.ts t), .pyNone⟩ = .ok none
    ∧ statusOfItem now ⟨.str (.ts t), .other⟩ = .ok none
    ∧ statusOfItem now ⟨.str (.lit s), e⟩ = .error .parseError
    ∧ statusOfItem now ⟨.str (.lit ""), e⟩ = .ok (some .future)
    ∧ statusOfItem now ⟨.str (.ts t), .str (.lit "")⟩ = .ok (some .current) := by
  refine ⟨rfl, rfl, rfl, rfl, rfl, rfl, rfl, ?_, ?_, ?_, ?_, ?_⟩ <;>
    simp [statusOfItem, PyStr.truthy, parseDate, hs, ht]

/-- Witness for the amended C4 at a concrete input. -/
theorem malformed_value_bucketing_witness :
    stepStartTerm 0 ⟨0, 0, 0, 0⟩ (.pyNone, 1) = .ok ⟨0, 0, 0, 0⟩
    ∧ stepStartTerm 0 ⟨0, 0, 0, 0⟩ (.other, 1) = .ok ⟨0, 0, 0, 0⟩
    ∧ stepStartTerm 0 ⟨0, 0, 0, 0⟩ (.range ⟨none, none⟩, 1) = .ok ⟨0, 0, 0, 0⟩
    ∧ stepStartTerm 0 ⟨0, 0, 0, 0⟩ (.str (.lit "junk"), 1) = .error .parseError
    ∧ statusOfItem 0 ⟨.pyNone, .pyNone⟩ = .ok none
    ∧ statusOfItem 0 ⟨.other, .pyNone⟩ = .ok none
    ∧ statusOfItem 0 ⟨.range ⟨none, none⟩, .pyNone⟩ = .ok none
    ∧ statusOfItem 0 ⟨.str (.ts (-1)), .pyNone⟩ = .ok none
    ∧ statusOfItem 0 ⟨.str (.ts (-1)), .other⟩ = .ok none
    ∧ statusOfItem 0 ⟨.str (.lit "junk"), .pyNone⟩ = .error .parseError
    ∧ statusOfItem 0 ⟨.str (.lit ""), .pyNone⟩ = .ok (some .future)
    ∧ statusOfItem 0 ⟨.str (.ts (-1)), .str (.lit "")⟩ = .ok (some .current) :=
  malformed_value_bucketing 0 ⟨0, 0, 0, 0⟩ 1 "junk" ⟨none, none⟩ .pyNone (-1)
    (by decide) (by decide)

/-! ## Claim C9 -/

/-- C9: when neither `start` nor `status` is a configured filter field,
`process_range_data` returns the envelope unchanged. -/
theorem process_range_data_passthrough (filterFields : List String) (now : Int)
    (env : Envelope)
    (hstart : "start" ∉ filterFields) (hstatus : "status" ∉ filterFields) :
    processRangeData filterFields now env = .ok env := by
  unfold processRangeData
  rw [if_neg hstart, if_neg hstatus]

/-- Witness for C9 at the default filter-field configuration and a concrete
envelope. -/
theorem process_range_data_passthrough_witness :
    processRangeData ["org", "modes", "language"] 3
        ⟨[⟨⟨.str (.ts 9), .pyNone⟩⟩], some [("org", ⟨[(.str (.lit "edX"), 2)], 2⟩)]⟩
      = .ok ⟨[⟨⟨.str (.ts 9), .pyNone⟩⟩], some [("org", ⟨[(.str (.lit "edX"), 2)], 2⟩)]⟩ :=
  process_range_data_passthrough ["org", "modes", "language"] 3
    ⟨[⟨⟨.str (.ts 9), .pyNone⟩⟩], some [("org", ⟨[(.str (.lit "edX"), 2)], 2⟩)]⟩
    (by decide) (by decide)

/-! ## Claim C5 -/

/-- Replacing the binding of a present key and looking it up again returns
the new value. -/
theorem lookup_setFirstKey {α : Type} (fl : List (String × α)) (key : String) (nv : α)
    (h : (lookupKey fl key).isSome) :
    lookupKey (setFirstKey fl key nv) key = some nv := by
  induction fl with
  | nil => simp [lookupKey] at h
  | cons p rest ih =>
      rcases p with ⟨k, v⟩
      by_cases hk : k = key
      · simp [lookupKey, setFirstKey, hk]
      · simp only [lookupKey, setFirstKey, if_neg hk] at h ⊢
        exact ih h

/-- The written start-bucket terms sum to the written total. -/
theorem termsSum_countsToStartTerms (c : StartCounts) :
    termsSum (countsToStartTerms c) = c.sum := by
  simp [termsSum, countsToStartTerms, StartCounts.sum]

/-- The written status-bucket terms sum to the written total. -/
theorem termsSum_countsToStatusTerms (c : StatusCounts) :
    termsSum (countsToStatusTerms c) = c.sum := by
  simp [termsSum, countsToStatusTerms, StatusCounts.sum]

/-- A non-empty raw start-terms read pins down the facet structure it was
read from. -/
theorem getStartTerms_nonempty (env : Envelope) (h : getStartTerms env ≠ []) :
    ∃ fl fe, env.facets = some fl ∧ lookupKey fl "start" = some fe := by
  obtain ⟨res, facets⟩ := env
  cases facets with
  | none => exact absurd rfl h
  | some fl =>
      cases hl : lookupKey fl "start" with
      | none =>
          simp only [getStartTerms] at h
          rw [hl] at h
          exact absurd rfl h
      | some fe => exact ⟨fl, fe, rfl, hl⟩

/-- C5: whenever a reclassification pass actually runs and succeeds, the
facet entry it wrote has `total` equal to the sum of its bucket counts:
the start pass (which runs on a non-empty raw terms dict) rewrites
`facets['start']`, the status pass rewrites `facets['status']`. -/
theorem facet_total_equals_bucket_sum (filterFields : List String) (now : Int)
    (env env' : Envelope) (fe : FacetEntry)
    (hok : processRangeData filterFields now env = .ok env') :
    ("start" ∈ filterFields → getStartTerms env ≠ [] →
        lookupFacetEntry env' "start" = some fe → fe.total = termsSum fe.terms)
    ∧ ("start" ∉ filterFields → "status" ∈ filterFields →
        lookupFacetEntry env' "status" = some fe → fe.total = termsSum fe.terms) := by
  obtain ⟨res, facets⟩ := env
  constructor
  · intro hin hne hlook
    unfold processRangeData at hok
    rw [if_pos hin, if_neg (by simpa [List.isEmpty_iff] using hne)] at hok
    obtain ⟨fl, fe0, hf, hl⟩ := getStartTerms_nonempty ⟨res, facets⟩ hne
    have hf2 : facets = some fl := hf
    subst hf2
    cases hb : bucketStartTerms now (getStartTerms ⟨res, some fl⟩) with
    | error e => rw [hb] at hok; simp at hok
    | ok c =>
        rw [hb] at hok
        simp only [setFacetEntry] at hok
        rw [hl] at hok
        simp only [Except.ok.injEq] at hok
        subst hok
        simp only [lookupFacetEntry] at hlook
        rw [lookup_setFirstKey fl "start" _ (by rw [hl]; rfl)] at hlook
        cases hlook
        exact (termsSum_countsToStartTerms c).symm
  · intro hnin hin hlook
    unfold processRangeData at hok
    rw [if_neg hnin, if_pos hin] at hok
    simp only at hok
    cases hb : bucketStatuses now res with
    | error e => rw [hb] at hok; simp at hok
    | ok c =>
        rw [hb] at hok
        cases facets with
        | none => simp [setFacetEntry] at hok
        | some fl =>
            simp only [setFacetEntry] at hok
            cases hl : lookupKey fl "status" with
            | none => rw [hl] at hok; simp at hok
            | some fe0 =>
                rw [hl] at hok
                simp only [Except.ok.injEq] at hok
                subst hok
                simp only [lookupFacetEntry] at hlook
                rw [lookup_setFirstKey fl "status" _ (by rw [hl]; rfl)] at hlook
                cases hlook
                exact (termsSum_countsToStatusTerms c).symm

/-- Witness for C5: a concrete facet response whose one start term lands in
the `soon` bucket; the rewritten entry records `total = 3`, the sum of its
bucket counts. -/
theorem facet_total_equals_bucket_sum_witness :
    FacetEntry.total ⟨countsToStartTerms ⟨0, 0, 3, 0⟩, 3⟩
      = termsSum (FacetEntry.terms ⟨countsToStartTerms ⟨0, 0, 3, 0⟩, 3⟩) :=
  (facet_total_equals_bucket_sum ["start"] 0
      ⟨[], some [("start", ⟨[(.str (.ts 5), 3)], 99⟩)]⟩
      ⟨[], some [("start", ⟨countsToStartTerms ⟨0, 0, 3, 0⟩, 3⟩)]⟩
      ⟨countsToStartTerms ⟨0, 0, 3, 0⟩, 3⟩
      (by decide)).1 (by decide) (by decide) (by decide)

/-! ## Claim C10 (corrected) -/

/-- C10 counterexample: an envelope with no facets mapping whose results
contain a truthy unparseable `start` string makes the status pass raise the
parse error from the bucketing loop — which runs before the
`results['facets']['status']` write — not a lookup error. -/
theorem status_pass_parse_error_counterexample :
    Envelope.facets ⟨[⟨⟨.str (.lit "not-a-date"), .pyNone⟩⟩], none⟩ = none
    ∧ processRangeData ["status"] 0 ⟨[⟨⟨.str (.lit "not-a-date"), .pyNone⟩⟩], none⟩
        = .error .parseError
    ∧ (Except.error PyErr.parseError : Except PyErr Envelope) ≠ .error .keyError := by
  refine ⟨rfl, by decide, by decide⟩

/-- C10 amended: when `status` is a configured filter field (and `start` is
not) and the per-item status loop completes without a parse exception, an
envelope whose facets mapping lacks a `status` entry (or that lacks a facets
mapping entirely) makes the unguarded `results['facets']['status']` write
fail with a lookup error instead of passing the envelope through — unlike
the start pass, which is guarded at every access. -/
theorem status_write_missing_key_error (filterFields : List String) (now : Int)
    (env : Envelope) (c : StatusCounts)
    (hin : "status" ∈ filterFields) (hns : "start" ∉ filterFields)
    (hb : bucketStatuses now env.results = .ok c)
    (hmiss : lookupFacetEntry env "status" = none) :
    processRangeData filterFields now env = .error .keyError := by
  obtain ⟨res, facets⟩ := env
  unfold processRangeData
  rw [if_neg hns, if_pos hin]
  simp only
  simp only at hb
  rw [hb]
  cases facets with
  | none => rfl
  | some fl =>
      simp only [lookupFacetEntry] at hmiss
      simp only [setFacetEntry]
      rw [hmiss]

/-- Witness for the amended C10: the default-free envelope with no facets
mapping and no results. -/
theorem status_write_missing_key_error_witness :
    processRangeData ["status"] 0 ⟨[], none⟩ = .error .keyError :=
  status_write_missing_key_error ["status"] 0 ⟨[], none⟩ ⟨0, 0, 0⟩
    (by decide) (by decide) (by decide) (by decide)

/-- One entry of a content-search (`perform_search`) result list; only its
`data` payload is touched by the post-processing. -/
structure ContentItem where
  data : PyVal
deriving DecidableEq, Repr

/-- The envelope `perform_search` returns: the surviving results plus the
`access_denied_count` it writes. -/
structure ContentEnvelope where
  results : List ContentItem
  access_denied_count : Nat
deriving DecidableEq, Repr

/-- The argument bundle of `searcher.search_string(...)` (api.py lines
62-71). -/
structure ContentQuery where
  search_term : String
  field_dictionary : Dict PyVal
  filter_dictionary : Dict FormattedFilter
  exclude_dictionary : Dict PyVal
  size : Nat
  from_ : Nat
  doc_type : String
  include_content : Bool

/-- The call `perform_search` makes: filter values wrapped through
`_format_filter` with the default `missing_included=True` (api.py line 60),
`doc_type="courseware_content"`, `include_content=True`. -/
def buildContentQuery (search_term : String)
    (field_dictionary filter_dictionary exclude_dictionary : Dict PyVal)
    (size from_ : Nat) : ContentQuery :=
  { search_term := search_term,
    field_dictionary := field_dictionary,
    filter_dictionary := fun k => (filter_dictionary k).map (fun v => _format_filter v true),
    exclude_dictionary := exclude_dictionary,
    size := size,
    from_ := from_,
    doc_type := "courseware_content",
    include_content := true }

/-- The post-processing of api.py lines 74-78: run the external result
processor over every item's `data`, count the items left with `None` data
into `access_denied_count` and keep only the others. -/
def postProcessResults (proc : PyVal → PyVal) (raw : List ContentItem) :
    List ContentItem × Nat :=
  ((raw.map (fun r => ⟨proc r.data⟩)).filter (fun r => !(r.data == .pyNone)),
   ((raw.map (fun r => (⟨proc r.data⟩ : ContentItem))).filter (fun r => r.data == .pyNone)).length)

/-- Source `perform_search` (api.py lines 42-80).  The external collaborators are
parameters: `engine` is the resolved search engine (`none` when
`SearchEngine.get_search_engine` returns nothing), `proc` is
`SearchResultProcessor.process_result` with the search term and user
applied, and the three dictionaries come from
`SearchFilterGenerator.generate_field_filters`. -/
def perform_search (search_term : String)
    (field_dictionary filter_dictionary exclude_dictionary : Dict PyVal)
    (engine : Option (ContentQuery → List ContentItem))
    (proc : PyVal → PyVal) (size from_ : Nat) : Except PyErr ContentEnvelope :=
  match engine with
  | none => .error .noSearchEngineError
  | some search =>
      let raw := search
        (buildContentQuery search_term field_dictionary filter_dictionary
          exclude_dictionary size from_)
      .ok ⟨(postProcessResults proc raw).1, (postProcessResults proc raw).2⟩

/-! ## Claim C6 -/

/-- Splitting a list by a Boolean predicate preserves total length. -/
theorem length_filter_partition {α : Type} (p : α → Bool) (l : List α) :
    (l.filter p).length + (l.filter (fun a => !(p a))).length = l.length := by
  induction l with
  | nil => rfl
  | cons a t ih => by_cases h : p a <;> simp [List.filter, h] <;> omega

/-- C6: content-search post-processing drops exactly the raw items whose
processed payload is `None`, counting them in `access_denied_count`, so
`access_denied_count + len(results)` equals the number of raw results the
engine returned; and `perform_search` returns exactly that post-processed
envelope. -/
theorem access_denied_count_partition (proc : PyVal → PyVal) (raw : List ContentItem)
    (search_term : String) (fd fl ex : Dict PyVal) (size from_ : Nat)
    (engineFn : ContentQuery → List ContentItem) :
    (postProcessResults proc raw).2 + (postProcessResults proc raw).1.length = raw.length
    ∧ perform_search search_term fd fl ex (some engineFn) proc size from_
        = .ok ⟨(postProcessResults proc
                  (engineFn (buildContentQuery search_term fd fl ex size from_))).1,
               (postProcessResults proc
                  (engineFn (buildContentQuery search_term fd fl ex size from_))).2⟩ := by
  refine ⟨?_, rfl⟩
  unfold postProcessResults
  simp only
  rw [show raw.length = (raw.map (fun r => (⟨proc r.data⟩ : ContentItem))).length by
        rw [List.length_map]]
  exact length_filter_partition _ _

/-- The inverse start-bucket mapping: the `DateRange` literals of the
`start == 'current' / 'new' / 'soon' / 'future'` branches of
`course_discovery_search` (api.py lines 170-196). -/
def inverseStartRange (now : Int) : StartBucket → DateRange
  | .current => ⟨none, some (now - thirtyDays)⟩
  | .new => ⟨some (now - thirtyDays), some now⟩
  | .soon => ⟨some now, some (now + thirtyDays)⟩
  | .future => ⟨some (now + thirtyDays), none⟩

/-- Source `course_discovery_facets()` (api.py line 22): the configured override,
or one entry of size 100 per filter field. -/
def course_discovery_facets (filterFields : List String)
    (facetsOverride : Option (List (String × Nat))) : List (String × Nat) :=
  match facetsOverride with
  | some f => f
  | none => filterFields.map (fun f => (f, 100))

/-- api.py lines 149-158: restrict the collaborator's `search_fields` to
`use_search_fields` (`["org"]`, plus `"course"` for a non-staff user when
the caller opts in — collapsed into `includeCourse`), overlay the caller's
`field_dictionary`, then add the `enrollment_start` bound unless the policy
flag skips it. -/
def discoveryFieldBase (now : Int) (includeCourse : Bool)
    (search_fields : Dict PyVal) (field_dictionary : Option (Dict PyVal))
    (skipEnrollmentStart : Bool) : Dict PyVal :=
  let useSearchFields := if includeCourse then ["org", "course"] else ["org"]
  let d0 : Dict PyVal := fun k => if k ∈ useSearchFields then search_fields k else none
  let d1 : Dict PyVal :=
    match field_dictionary with
    | none => d0
    | some ov => fun k => match ov k with | some v => some v | none => d0 k
  if skipEnrollmentStart then d1
  else setKey d1 "enrollment_start" (.range ⟨none, some now⟩)

/-- api.py lines 164-168: the filter dictionary starts empty, optionally
gaining the `enrollment_end` lower bound. -/
def discoveryFilterBase (now : Int) (allowEnrollmentEnd : Bool) : Dict FormattedFilter :=
  if allowEnrollmentEnd then
    setKey (fun _ => none) "enrollment_end" (_format_filter (.range ⟨some now, none⟩) true)
  else fun _ => none

/-- api.py lines 169-196: the popped `start` value, compared against the
four bucket names, adds the corresponding `DateRange` filter. -/
def discoveryStartFilters (now : Int) (fd : Dict FormattedFilter)
    (startVal : Option PyVal) : Dict FormattedFilter :=
  if startVal = some (.str (.lit "current")) then
    setKey fd "start" (_format_filter (.range (inverseStartRange now .current)) true)
  else if startVal = some (.str (.lit "new")) then
    setKey fd "start" (_format_filter (.range (inverseStartRange now .new)) true)
  else if startVal = some (.str (.lit "soon")) then
    setKey fd "start" (_format_filter (.range (inverseStartRange now .soon)) true)
  else if startVal = some (.str (.lit "future")) then
    setKey fd "start" (_format_filter (.range (inverseStartRange now .future)) true)
  else fd

/-- api.py lines 198-218: the popped `status` value adds `end` and/or
`start` filters; only `past` excludes documents missing the field. -/
def discoveryStatusFilters (now : Int) (fd : Dict FormattedFilter)
    (statusVal : Option PyVal) : Dict FormattedFilter :=
  if statusVal = some (.str (.lit "past")) then
    setKey fd "end" (_format_filter (.range ⟨none, some now⟩) false)
  else if statusVal = some (.str (.lit "current")) then
    setKey (setKey fd "start" (_format_filter (.range ⟨none, some now⟩) true))
      "end" (_format_filter (.range ⟨some now, none⟩) true)
  else if statusVal = some (.str (.lit "future")) then
    setKey fd "start" (_format_filter (.range ⟨some now, none⟩) true)
  else fd

/-- The argument bundle of `searcher.search(...)` (api.py lines 223-234). -/
structure EngineQuery where
  query_string : Option String
  doc_type : String
  size : Nat
  from_ : Nat
  field_dictionary : Dict PyVal
  filter_dictionary : Dict FormattedFilter
  exclude_dictionary : Dict PyVal
  facet_terms : List (String × Nat)

/-- The pure construction of the engine call made by
`course_discovery_search`: pop `start` then `status` off the field
dictionary, translate the popped values into filters, optionally pin
`catalog_visibility`, and attach the facet spec. -/
def buildDiscoveryQuery (filterFields : List String) (now : Int)
    (search_term : Option String) (size from_ : Nat)
    (includeCourse : Bool) (search_fields exclude_dictionary : Dict PyVal)
    (field_dictionary : Option (Dict PyVal))
    (skipEnrollmentStart allowEnrollmentEnd allowCatalogVisibility : Bool)
    (facetsOverride : Option (List (String × Nat))) : EngineQuery :=
  let base := discoveryFieldBase now includeCourse search_fields field_dictionary
    skipEnrollmentStart
  let afterStart := delKey base "start"
  let fields := delKey afterStart "status"
  let fields2 := if allowCatalogVisibility
    then setKey fields "catalog_visibility" (.str (.lit "both"))
    else fields
  { query_string := search_term,
    doc_type := "course_info",
    size := size,
    from_ := from_,
    field_dictionary := fields2,
    filter_dictionary :=
      discoveryStatusFilters now
        (discoveryStartFilters now (discoveryFilterBase now allowEnrollmentEnd)
          (base "start"))
        (afterStart "status"),
    exclude_dictionary := exclude_dictionary,
    facet_terms := course_discovery_facets filterFields facetsOverride }

/-- Source `course_discovery_search` (api.py lines 143-237).  In the source the
engine is resolved after the field dictionary is assembled and before the
filter dictionary is built; both constructions are pure, so resolution is
checked first here with identical observable behaviour. -/
def course_discovery_search (filterFields : List String) (now : Int)
    (engine : Option (EngineQuery → Envelope))
    (search_term : Option String) (size from_ : Nat)
    (includeCourse : Bool) (search_fields exclude_dictionary : Dict PyVal)
    (field_dictionary : Option (Dict PyVal))
    (skipEnrollmentStart allowEnrollmentEnd allowCatalogVisibility : Bool)
    (facetsOverride : Option (List (String × Nat))) : Except PyErr Envelope :=
  match engine with
  | none => .error .noSearchEngineError
  | some search =>
      processRangeData filterFields now
        (search (buildDiscoveryQuery filterFields now search_term size from_
          includeCourse search_fields exclude_dictionary field_dictionary
          skipEnrollmentStart allowEnrollmentEnd allowCatalogVisibility
          facetsOverride))

/-! ## Claim C3 -/

/-- Modelled from the spec's inverse start mapping table (§4.1): the filter
a symbolic `start` value must generate. -/
def specStartFilter (now : Int) (v : Option PyVal) : Option FormattedFilter :=
  if v = some (.str (.lit "current")) then some ⟨.range ⟨none, some (now - thirtyDays)⟩, true⟩
  else if v = some (.str (.lit "new")) then some ⟨.range ⟨some (now - thirtyDays), some now⟩, true⟩
  else if v = some (.str (.lit "soon")) then some ⟨.range ⟨some now, some (now + thirtyDays)⟩, true⟩
  else if v = some (.str (.lit "future")) then some ⟨.range ⟨some (now + thirtyDays), none⟩, true⟩
  else none

/-- Modelled from the spec's inverse status mapping table (§4.1): the
`start` filter a symbolic `status` value must generate. -/
def specStatusStartFilter (now : Int) (v : Option PyVal) : Option FormattedFilter :=
  if v = some (.str (.lit "current")) then some ⟨.range ⟨none, some now⟩, true⟩
  else if v = some (.str (.lit "future")) then some ⟨.range ⟨some now, none⟩, true⟩
  else none

/-- Modelled from the spec's inverse status mapping table (§4.1): the `end`
filter a symbolic `status` value must generate (`missing_included=false`
only for `past`). -/
def specStatusEndFilter (now : Int) (v : Option PyVal) : Option FormattedFilter :=
  if v = some (.str (.lit "past")) then some ⟨.range ⟨none, some now⟩, false⟩
  else if v = some (.str (.lit "current")) then some ⟨.range ⟨some now, none⟩, true⟩
  else none

/-- The base filter dictionary holds nothing except possibly
`enrollment_end`. -/
theorem discoveryFilterBase_apply (now : Int) (aee : Bool) (k : String)
    (hk : k ≠ "enrollment_end") : discoveryFilterBase now aee k = none := by
  unfold discoveryFilterBase
  split_ifs <;> simp [setKey, hk]

/-- The `start` filter after the start branches agrees with the spec table,
falling back to the incoming dictionary for unknown or absent values. -/
theorem discoveryStartFilters_start (now : Int) (fd : Dict FormattedFilter)
    (sv : Option PyVal) :
    discoveryStartFilters now fd sv "start"
      = match specStartFilter now sv with
        | some f => some f
        | none => fd "start" := by
  unfold discoveryStartFilters specStartFilter
  split_ifs <;> simp_all [setKey, _format_filter, inverseStartRange]

/-- The start branches touch no key other than `start`. -/
theorem discoveryStartFilters_other (now : Int) (fd : Dict FormattedFilter)
    (sv : Option PyVal) (k : String) (hk : k ≠ "start") :
    discoveryStartFilters now fd sv k = fd k := by
  unfold discoveryStartFilters
  split_ifs <;> simp [setKey, hk]

/-- The `end` filter after the status branches agrees with the spec table. -/
theorem discoveryStatusFilters_end (now : Int) (fd : Dict FormattedFilter)
    (stv : Option PyVal) :
    discoveryStatusFilters now fd stv "end"
      = match specStatusEndFilter now stv with
        | some f => some f
        | none => fd "end" := by
  unfold discoveryStatusFilters specStatusEndFilter
  split_ifs <;> simp_all [setKey, _format_filter]

/-- The `start` filter after the status branches agrees with the spec
table, falling back to the incoming dictionary. -/
theorem discoveryStatusFilters_start (now : Int) (fd : Dict FormattedFilter)
    (stv : Option PyVal) :
    discoveryStatusFilters now fd stv "start"
      = match specStatusStartFilter now stv with
        | some f => some f
        | none => fd "start" := by
  unfold discoveryStatusFilters specStatusStartFilter
  split_ifs <;> simp_all [setKey, _format_filter]

/-- The status branches touch no key other than `start` and `end`. -/
theorem discoveryStatusFilters_other (now : Int) (fd : Dict FormattedFilter)
    (stv : Option PyVal) (k : String) (hk1 : k ≠ "start") (hk2 : k ≠ "end") :
    discoveryStatusFilters now fd stv k = fd k := by
  unfold discoveryStatusFilters
  split_ifs <;> simp [setKey, hk1, hk2]

/-- Reading a deleted dict key gives nothing. -/
theorem delKey_self {α : Type} (d : Dict α) (k : String) : delKey d k k = none := by
  simp [delKey]

/-- Deleting one key leaves every other key unchanged. -/
theorem delKey_other {α : Type} (d : Dict α) (k k2 : String) (h : k2 ≠ k) :
    delKey d k k2 = d k2 := by
  simp [delKey, h]

/-- Setting one key leaves every other key unchanged. -/
theorem setKey_other {α : Type} (d : Dict α) (k : String) (v : α) (k2 : String)
    (h : k2 ≠ k) : setKey d k v k2 = d k2 := by
  simp [setKey, h]

/-- C3: the engine query built by course-discovery search carries no
`start` or `status` key in its field dictionary, its `end` filter is
exactly the spec's inverse status mapping, and its `start` filter is the
spec's inverse status mapping when that applies (status `current`/`future`
overwrite it last), otherwise the spec's inverse start mapping; unknown or
absent values add no filter. -/
theorem course_discovery_pseudo_field_translation
    (filterFields : List String) (now : Int) (search_term : Option String)
    (size from_ : Nat) (includeCourse : Bool)
    (search_fields exclude_dictionary : Dict PyVal)
    (field_dictionary : Option (Dict PyVal))
    (skipEnrollmentStart allowEnrollmentEnd allowCatalogVisibility : Bool)
    (facetsOverride : Option (List (String × Nat))) :
    (buildDiscoveryQuery filterFields now search_term size from_ includeCourse
        search_fields exclude_dictionary field_dictionary skipEnrollmentStart
        allowEnrollmentEnd allowCatalogVisibility facetsOverride).field_dictionary
        "start" = none
    ∧ (buildDiscoveryQuery filterFields now search_term size from_ includeCourse
        search_fields exclude_dictionary field_dictionary skipEnrollmentStart
        allowEnrollmentEnd allowCatalogVisibility facetsOverride).field_dictionary
        "status" = none
    ∧ (buildDiscoveryQuery filterFields now search_term size from_ includeCourse
        search_fields exclude_dictionary field_dictionary skipEnrollmentStart
        allowEnrollmentEnd allowCatalogVisibility facetsOverride).filter_dictionary
        "end"
      = specStatusEndFilter now
          (discoveryFieldBase now includeCourse search_fields field_dictionary
            skipEnrollmentStart "status")
    ∧ (buildDiscoveryQuery filterFields now search_term size from_ includeCourse
        search_fields exclude_dictionary field_dictionary skipEnrollmentStart
        allowEnrollmentEnd allowCatalogVisibility facetsOverride).filter_dictionary
        "start"
      = match specStatusStartFilter now
            (discoveryFieldBase now includeCourse search_fields field_dictionary
              skipEnrollmentStart "status") with
        | some f => some f
        | none =>
            specStartFilter now
              (discoveryFieldBase now includeCourse search_fields field_dictionary
                skipEnrollmentStart "start") := by
  refine ⟨?_, ?_, ?_, ?_⟩
  · simp only [buildDiscoveryQuery]
    by_cases hcv : allowCatalogVisibility <;> simp only [hcv, if_pos, if_true, if_false, Bool.false_eq_true, ite_false, ite_true]
    · rw [setKey_other _ _ _ "start" (by decide), delKey_other _ _ "start" (by decide),
        delKey_self]
    · rw [delKey_other _ _ "start" (by decide), delKey_self]
  · simp only [buildDiscoveryQuery]
    by_cases hcv : allowCatalogVisibility <;> simp only [hcv, if_pos, if_true, if_false, Bool.false_eq_true, ite_false, ite_true]
    · rw [setKey_other _ _ _ "status" (by decide), delKey_self]
    · rw [delKey_self]
  · simp only [buildDiscoveryQuery]
    rw [discoveryStatusFilters_end, delKey_other _ _ "status" (by decide),
      discoveryStartFilters_other _ _ _ "end" (by decide),
      discoveryFilterBase_apply _ _ "end" (by decide)]
    cases specStatusEndFilter now
        (discoveryFieldBase now includeCourse search_fields field_dictionary
          skipEnrollmentStart "status") <;> rfl
  · simp only [buildDiscoveryQuery]
    rw [discoveryStatusFilters_start, delKey_other _ _ "status" (by decide),
      discoveryStartFilters_start,
      discoveryFilterBase_apply _ _ "start" (by decide)]
    cases specStatusStartFilter now
        (discoveryFieldBase now includeCourse search_fields field_dictionary
          skipEnrollmentStart "status") <;>
      cases specStartFilter now
          (discoveryFieldBase now includeCourse search_fields field_dictionary
            skipEnrollmentStart "start") <;> rfl

/-! ## Claim C7 -/

/-- Whether `t` lies strictly inside a `DateRange`: strictly above any present
lower bound and strictly below any present upper bound. -/
def strictlyInside (r : DateRange) (t : Int) : Bool :=
  (match r.lower with
   | some l => decide (l < t)
   | none => true)
  && (match r.upper with
      | some u => decide (t < u)
      | none => true)

/-- C7: any timestamp strictly inside the `DateRange` the inverse mapping
generates for a start bucket is classified back to that bucket by the
forward classifier (the exact `now` boundary, excluded by strictness, is
the inclusive edge of `new`). -/
theorem start_bucket_round_trip (now t : Int) (b : StartBucket)
    (h : strictlyInside (inverseStartRange now b) t = true) :
    startBucket now t = b := by
  have h30 : thirtyDays = 2592000 := rfl
  cases b <;>
    simp only [inverseStartRange, strictlyInside, Bool.and_eq_true,
      decide_eq_true_eq] at h <;>
    (unfold startBucket; split_ifs with h1 h2 h3) <;> simp_all <;> omega

/-- Witness for C7: `now + 5` seconds sits strictly inside the `soon`
range and classifies back to `soon`. -/
theorem start_bucket_round_trip_witness :
    strictlyInside (inverseStartRange 0 .soon) 5 = true
    ∧ startBucket 0 5 = .soon :=
  ⟨by decide, start_bucket_round_trip 0 5 .soon (by decide)⟩

/-! ## Claim C8 -/

/-- C8: with no resolvable search engine, both entry points fail with the
no-search-engine error, for every choice of the remaining inputs — in
particular the result does not depend on any engine behaviour, so the
engine contract is never invoked. -/
theorem no_search_engine_failure (search_term : String)
    (fd fl ex : Dict PyVal) (proc : PyVal → PyVal) (size from_ : Nat)
    (filterFields : List String) (now : Int) (dterm : Option String)
    (dsize dfrom : Nat) (includeCourse : Bool)
    (search_fields exclude_dictionary : Dict PyVal)
    (field_dictionary : Option (Dict PyVal))
    (skipEnrollmentStart allowEnrollmentEnd allowCatalogVisibility : Bool)
    (facetsOverride : Option (List (String × Nat))) :
    perform_search search_term fd fl ex none proc size from_
        = .error .noSearchEngineError
    ∧ course_discovery_search filterFields now none dterm dsize dfrom
        includeCourse search_fields exclude_dictionary field_dictionary
        skipEnrollmentStart allowEnrollmentEnd allowCatalogVisibility
        facetsOverride
        = .error .noSearchEngineError :=
  ⟨rfl, rfl⟩
